import Mathlib

/-!
Shallow embedding of the uruguay-news backend (src/backend/main.py and
src/backend/src/uruguay_news/services.py) together with theorems about its
health-check aggregation, service factories and text cleaning.

Modelling conventions:
- A Python exception is reduced to its message string (`PyError`).
- Every fallible external interaction (the Firestore query, the Redis ping,
  the logging calls inside the guarded bodies, the service constructions
  inside the AI block of `health_check`) is resolved by a boolean flag in an
  environment record `Env`: the flag says whether that call raises on this
  run.  Each `try/except` of the source becomes a case split on its flag.
- Python object identity is modelled by an allocation counter: constructing
  an object draws a fresh `id : Nat` and increments the counter.
- Python `float` constants in the stub return values are exact (0.0 and 1.0),
  so they are modelled as rationals.
- A Python `dict` with a fixed key set is modelled as a structure; keys that
  are present only on one arm of a `try/except` become `Option` fields.
-/

namespace UruguayNews

/-- A Python exception, reduced to its message string. -/
structure PyError where
  msg : String
deriving DecidableEq

/-- Outcomes of the fallible external calls made during one run: each flag
tells whether the corresponding call raises.  `redisConfigured` models
`redis_client is not None`; `now` models `datetime.now(timezone.utc)`. -/
structure Env where
  firestoreRaises : Bool
  firestoreMsg : String
  redisConfigured : Bool
  redisPingRaises : Bool
  redisMsg : String
  aiBlockRaises : Bool
  aiMsg : String
  loadModelBodyRaises : Bool
  loadPromptsBodyRaises : Bool
  now : Nat
deriving DecidableEq

/-- Python `str.isspace` on one character (the set `str.strip()` removes). -/
def pyIsSpace (c : Char) : Bool :=
  c = ' ' || c = '\t' || c = '\n' || c = '\x0B' || c = '\x0C' || c = '\r' ||
  c = '\x1C' || c = '\x1D' || c = '\x1E' || c = '\x1F' ||
  c = '\x85' || c = '\xA0' || c = '\u1680' ||
  ('\u2000' ≤ c && c ≤ '\u200A') || c = '\u2028' || c = '\u2029' ||
  c = '\u202F' || c = '\u205F' || c = '\u3000'

/-- Remove elements satisfying `p` from both ends of a list. -/
def stripEnds {α : Type} (p : α → Bool) (l : List α) : List α :=
  ((l.dropWhile p).reverse.dropWhile p).reverse

/-- Python `str.strip()`: remove whitespace from both ends. -/
def pyStrip (s : String) : String :=
  String.mk (stripEnds pyIsSpace s.data)

/-- `ContentExtractor` instance: only its identity is observable. -/
structure ContentExtractor where
  id : Nat
deriving DecidableEq

/-- `ContentExtractor.__init__`: allocates a fresh instance. -/
def ContentExtractor.init (alloc : Nat) : ContentExtractor × Nat :=
  (⟨alloc⟩, alloc + 1)

/-- `ContentExtractor.clean_text`: the guarded body is `return text.strip()`,
and `str.strip` on a string cannot raise, so the `except` arm returning `""`
is dead code; the method always returns the stripped text. -/
def ContentExtractor.clean_text (_self : ContentExtractor) (text : String) : String :=
  pyStrip text

/-- `SentimentAnalyzer` instance state: identity and the `model_loaded` flag
set in `__init__` to `False`. -/
structure SentimentAnalyzer where
  id : Nat
  model_loaded : Bool
deriving DecidableEq

/-- `SentimentAnalyzer.__init__`: fresh instance with `model_loaded = False`. -/
def SentimentAnalyzer.init (alloc : Nat) : SentimentAnalyzer × Nat :=
  (⟨alloc, false⟩, alloc + 1)

/-- The dict returned by `SentimentAnalyzer.analyze_sentiment`; the success
arm carries `processing_time` and no `error` key, the except arm carries
`error` and no `processing_time`. -/
structure SentimentDict where
  sentiment : String
  confidence : ℚ
  score_positive : ℚ
  score_negative : ℚ
  score_neutral : ℚ
  processing_time : Option ℚ
  error : Option String
deriving DecidableEq

/-- `SentimentAnalyzer.analyze_sentiment`: `bodyRaises` says whether the
guarded body raises (with message `errMsg`); it never mutates `self`, and on
the success arm returns a constant dict independent of `text` and of
`self.model_loaded`. -/
def SentimentAnalyzer.analyze_sentiment (bodyRaises : Bool) (errMsg : String)
    (_self : SentimentAnalyzer) (_text : String) : SentimentDict :=
  if bodyRaises then
    { sentiment := "unknown", confidence := 0,
      score_positive := 0, score_negative := 0, score_neutral := 0,
      processing_time := none, error := some errMsg }
  else
    { sentiment := "neutral", confidence := 0,
      score_positive := 0, score_negative := 0, score_neutral := 1,
      processing_time := some 0, error := none }

/-- `SentimentAnalyzer.load_model`: on success sets `model_loaded = True` and
returns it; if the guarded body raises before the assignment, the except arm
returns `False` and the flag is left unchanged. -/
def SentimentAnalyzer.load_model (bodyRaises : Bool) (self : SentimentAnalyzer) :
    Bool × SentimentAnalyzer :=
  if bodyRaises then (false, self)
  else (true, { self with model_loaded := true })

/-- `BiasDetector` instance state: identity and the `prompts_loaded` flag set
in `__init__` to `False`. -/
structure BiasDetector where
  id : Nat
  prompts_loaded : Bool
deriving DecidableEq

/-- `BiasDetector.__init__`: fresh instance with `prompts_loaded = False`. -/
def BiasDetector.init (alloc : Nat) : BiasDetector × Nat :=
  (⟨alloc, false⟩, alloc + 1)

/-- The dict returned by `BiasDetector.detect_bias`; the success arm carries
`processing_time` and no `error` key, the except arm carries `error` and no
`processing_time`. -/
structure BiasDict where
  bias_score : ℚ
  bias_type : String
  confidence : ℚ
  analysis : String
  processing_time : Option ℚ
  error : Option String
deriving DecidableEq

/-- `BiasDetector.detect_bias`: `bodyRaises` says whether the guarded body
raises (with message `errMsg`); it never mutates `self`, and on the success
arm returns a constant dict independent of `text` and of
`self.prompts_loaded`. -/
def BiasDetector.detect_bias (bodyRaises : Bool) (errMsg : String)
    (_self : BiasDetector) (_text : String) : BiasDict :=
  if bodyRaises then
    { bias_score := 0, bias_type := "unknown", confidence := 0,
      analysis := "Analysis failed: " ++ errMsg,
      processing_time := none, error := some errMsg }
  else
    { bias_score := 0, bias_type := "none", confidence := 0,
      analysis := "No bias detected",
      processing_time := some 0, error := none }

/-- `BiasDetector.load_prompts`: on success sets `prompts_loaded = True` and
returns it; if the guarded body raises before the assignment, the except arm
returns `False` and the flag is left unchanged. -/
def BiasDetector.load_prompts (bodyRaises : Bool) (self : BiasDetector) :
    Bool × BiasDetector :=
  if bodyRaises then (false, self)
  else (true, { self with prompts_loaded := true })

/-- `create_content_extractor`: constructs and returns a fresh instance. -/
def create_content_extractor (alloc : Nat) : ContentExtractor × Nat :=
  ContentExtractor.init alloc

/-- `create_sentiment_analyzer`: constructs a fresh `SentimentAnalyzer`,
calls `load_model` (discarding its boolean result) and returns the instance. -/
def create_sentiment_analyzer (loadBodyRaises : Bool) (alloc : Nat) :
    SentimentAnalyzer × Nat :=
  let (analyzer, alloc1) := SentimentAnalyzer.init alloc
  let (_, analyzer1) := analyzer.load_model loadBodyRaises
  (analyzer1, alloc1)

/-- `create_bias_detector`: constructs a fresh `BiasDetector`, calls
`load_prompts` (discarding its boolean result) and returns the instance. -/
def create_bias_detector (loadBodyRaises : Bool) (alloc : Nat) :
    BiasDetector × Nat :=
  let (detector, alloc1) := BiasDetector.init alloc
  let (_, detector1) := detector.load_prompts loadBodyRaises
  (detector1, alloc1)

/-- The `HealthCheck` pydantic response model (models.py): overall status
string plus one boolean flag per dependency. -/
structure HealthCheck where
  status : String
  service : String
  version : String
  timestamp : Nat
  firestore_connected : Bool
  redis_connected : Bool
  ai_models_loaded : Bool
deriving DecidableEq

/-- The `/health` handler `health_check` of main.py, threading the allocation
counter through the service constructions of its AI block.  Each of its three
`try/except` blocks becomes a case split on the corresponding `Env` flag. -/
def health_check (env : Env) (alloc : Nat) : HealthCheck × Nat :=
  let firestore_connected := true
  let redis_connected := true
  let ai_models_loaded := true
  let overall_status := "healthy"
  let (firestore_connected, overall_status) :=
    if env.firestoreRaises then (false, "degraded")
    else (firestore_connected, overall_status)
  let (redis_connected, overall_status) :=
    if env.redisConfigured then
      if env.redisPingRaises then (false, "degraded") else (true, overall_status)
    else (false, overall_status)
  let (ai_models_loaded, overall_status, alloc) :=
    if env.aiBlockRaises then (false, "degraded", alloc)
    else
      let (sentiment_analyzer, alloc1) :=
        create_sentiment_analyzer env.loadModelBodyRaises alloc
      let sentiment_loaded := sentiment_analyzer.model_loaded
      let (bias_detector, alloc2) :=
        create_bias_detector env.loadPromptsBodyRaises alloc1
      let bias_loaded := bias_detector.prompts_loaded
      let (_content_extractor, alloc3) := create_content_extractor alloc2
      let extractor_available := true
      let loaded := sentiment_loaded && bias_loaded && extractor_available
      (loaded, if loaded then overall_status else "degraded", alloc3)
  ({ status := overall_status,
     service := "uruguay-news-api",
     version := "0.1.0",
     timestamp := env.now,
     firestore_connected := firestore_connected,
     redis_connected := redis_connected,
     ai_models_loaded := ai_models_loaded }, alloc)

/-- One `try/except Exception` block under the explicit exception semantics:
run the body; a raised exception is given to the handler. -/
def guarded {α : Type} (body : Except PyError α) (handler : PyError → Except PyError α) :
    Except PyError α :=
  match body with
  | Except.ok a => Except.ok a
  | Except.error e => handler e

/-- `health_check` under the explicit exception semantics: each probe body
may raise (per the `Env` flags) and each except arm recovers into flag
updates, exactly as in the source. -/
def health_check_exc (env : Env) (alloc : Nat) : Except PyError (HealthCheck × Nat) := do
  let firestore_connected := true
  let redis_connected := true
  let ai_models_loaded := true
  let overall_status := "healthy"
  let (firestore_connected, overall_status) ← guarded
    (if env.firestoreRaises then Except.error ⟨env.firestoreMsg⟩
     else Except.ok (firestore_connected, overall_status))
    (fun _ => Except.ok (false, "degraded"))
  let (redis_connected, overall_status) ← guarded
    (if env.redisConfigured then
       if env.redisPingRaises then Except.error ⟨env.redisMsg⟩
       else Except.ok (true, overall_status)
     else Except.ok (false, overall_status))
    (fun _ => Except.ok (false, "degraded"))
  let (ai_models_loaded, overall_status, alloc) ← guarded
    (if env.aiBlockRaises then Except.error ⟨env.aiMsg⟩
     else
       let (sentiment_analyzer, alloc1) :=
         create_sentiment_analyzer env.loadModelBodyRaises alloc
       let sentiment_loaded := sentiment_analyzer.model_loaded
       let (bias_detector, alloc2) :=
         create_bias_detector env.loadPromptsBodyRaises alloc1
       let bias_loaded := bias_detector.prompts_loaded
       let (_content_extractor, alloc3) := create_content_extractor alloc2
       let extractor_available := true
       let loaded := sentiment_loaded && bias_loaded && extractor_available
       Except.ok (loaded, if loaded then overall_status else "degraded", alloc3))
    (fun _ => Except.ok (false, "degraded", alloc))
  return ({ status := overall_status,
            service := "uruguay-news-api",
            version := "0.1.0",
            timestamp := env.now,
            firestore_connected := firestore_connected,
            redis_connected := redis_connected,
            ai_models_loaded := ai_models_loaded }, alloc)

/-- An environment where every dependency check succeeds. -/
def envNominal : Env :=
  { firestoreRaises := false, firestoreMsg := "",
    redisConfigured := true, redisPingRaises := false, redisMsg := "",
    aiBlockRaises := false, aiMsg := "",
    loadModelBodyRaises := false, loadPromptsBodyRaises := false,
    now := 0 }

/-- Nominal run except that the Firestore query raises. -/
def envFirestoreDown : Env :=
  { envNominal with firestoreRaises := true, firestoreMsg := "connection refused" }

end UruguayNews

namespace UruguayNews

/-! ## Helper lemmas on `List.dropWhile` and `stripEnds` -/

/-- The head of a non-empty `dropWhile` result fails the predicate. -/
theorem dropWhile_head_not {α : Type} (p : α → Bool) :
    ∀ (l : List α) (a : α) (t : List α), l.dropWhile p = a :: t → p a = false := by
  intro l
  induction l with
  | nil => intro a t h; simp [List.dropWhile] at h
  | cons x xs ih =>
    intro a t h
    by_cases hx : p x = true
    · exact ih a t (by simpa [List.dropWhile_cons, hx] using h)
    · have hx2 : p x = false := by simpa using hx
      rw [List.dropWhile_cons, hx2] at h
      simp at h
      rw [← h.1]
      exact hx2

/-- Dropping a satisfied leading segment twice is the same as once. -/
theorem dropWhile_self {α : Type} (p : α → Bool) (l : List α) :
    (l.dropWhile p).dropWhile p = l.dropWhile p := by
  cases hd : l.dropWhile p with
  | nil => rfl
  | cons a t =>
    have hpa : p a = false := dropWhile_head_not p l a t hd
    rw [List.dropWhile_cons, hpa]
    simp

/-- `dropWhile` removes a leading segment: the original list is that segment
followed by the result. -/
theorem dropWhile_eq_append {α : Type} (p : α → Bool) :
    ∀ l : List α, ∃ s : List α, l = s ++ l.dropWhile p := by
  intro l
  induction l with
  | nil => exact ⟨[], rfl⟩
  | cons x xs ih =>
    by_cases hx : p x = true
    · obtain ⟨s, hs⟩ := ih
      refine ⟨x :: s, ?_⟩
      rw [List.dropWhile_cons, hx]
      simpa using hs
    · have hx2 : p x = false := by simpa using hx
      refine ⟨[], ?_⟩
      rw [List.dropWhile_cons, hx2]
      rfl

/-- Stripping both ends is idempotent. -/
theorem stripEnds_idem {α : Type} (p : α → Bool) (l : List α) :
    stripEnds p (stripEnds p l) = stripEnds p l := by
  unfold stripEnds
  set m := l.dropWhile p with hm
  set A := m.reverse.dropWhile p with hA
  have hAd : A.dropWhile p = A := by rw [hA]; exact dropWhile_self p m.reverse
  have step1 : A.reverse.dropWhile p = A.reverse := by
    cases hcase : A.reverse with
    | nil => simp [hcase]
    | cons a t =>
      obtain ⟨s, hs⟩ := dropWhile_eq_append p m.reverse
      have hm2 : m = A.reverse ++ s.reverse := by
        have := congrArg List.reverse hs
        simpa [List.reverse_append] using this
      have hmc : m = a :: (t ++ s.reverse) := by
        rw [hm2, hcase]
        simp
      have hpa : p a = false := by
        refine dropWhile_head_not p l a (t ++ s.reverse) ?_
        rw [← hm, ← hmc]
      rw [List.dropWhile_cons, hpa]
      simp
  rw [step1, List.reverse_reverse, hAd]

/-- `pyStrip` is idempotent. -/
theorem pyStrip_idem (s : String) : pyStrip (pyStrip s) = pyStrip s := by
  unfold pyStrip
  rw [stripEnds_idem]

end UruguayNews

namespace UruguayNews

/-- The condition under which the source sets `overall_status = "degraded"`:
some dependency check raised, or the AI block found the models not loaded. -/
def degradedCond (env : Env) : Bool :=
  env.firestoreRaises || (env.redisConfigured && env.redisPingRaises) ||
  env.aiBlockRaises || env.loadModelBodyRaises || env.loadPromptsBodyRaises

/-- Closed-form evaluation of `health_check` over an arbitrary environment. -/
theorem health_check_eval (env : Env) (alloc : Nat) :
    health_check env alloc =
      ({ status := if degradedCond env then "degraded" else "healthy",
         service := "uruguay-news-api",
         version := "0.1.0",
         timestamp := env.now,
         firestore_connected := !env.firestoreRaises,
         redis_connected := env.redisConfigured && !env.redisPingRaises,
         ai_models_loaded :=
           !env.aiBlockRaises && !env.loadModelBodyRaises && !env.loadPromptsBodyRaises },
       if env.aiBlockRaises then alloc else alloc + 1 + 1 + 1) := by
  rcases env with ⟨fs, fsm, rc, rp, rm, ab, am, lm, lp, now⟩
  cases fs <;> cases rc <;> cases rp <;> cases ab <;> cases lm <;> cases lp <;> rfl

/-- One call on a live `SentimentAnalyzer` instance, for quantifying over the
operations of the class: `analyze_sentiment` (which never assigns to
`self.model_loaded`) or `load_model`. -/
inductive SAOp where
  | analyze (bodyRaises : Bool) (errMsg : String) (text : String)
  | load (bodyRaises : Bool)
deriving DecidableEq

/-- Effect of one `SentimentAnalyzer` method call on the instance state. -/
def SAOp.apply : SAOp → SentimentAnalyzer → SentimentAnalyzer
  | SAOp.analyze _ _ _, a => a
  | SAOp.load r, a => (a.load_model r).2

/-- Run a sequence of `SentimentAnalyzer` method calls on an instance. -/
def applySAOps (ops : List SAOp) (a : SentimentAnalyzer) : SentimentAnalyzer :=
  ops.foldl (fun x op => op.apply x) a

/-- One call on a live `BiasDetector` instance: `detect_bias` (which never
assigns to `self.prompts_loaded`) or `load_prompts`. -/
inductive BDOp where
  | detect (bodyRaises : Bool) (errMsg : String) (text : String)
  | load (bodyRaises : Bool)
deriving DecidableEq

/-- Effect of one `BiasDetector` method call on the instance state. -/
def BDOp.apply : BDOp → BiasDetector → BiasDetector
  | BDOp.detect _ _ _, d => d
  | BDOp.load r, d => (d.load_prompts r).2

/-- Run a sequence of `BiasDetector` method calls on an instance. -/
def applyBDOps (ops : List BDOp) (d : BiasDetector) : BiasDetector :=
  ops.foldl (fun x op => op.apply x) d

/-- Nominal run except that the logging call inside the guarded body of
`SentimentAnalyzer.load_model` raises, so the except arm leaves
`model_loaded = False`. -/
def envLoadFail : Env :=
  { envNominal with loadModelBodyRaises := true }

/-- Nominal run except that the Redis client is not configured
(`redis_client is None`). -/
def envNoRedis : Env :=
  { envNominal with redisConfigured := false }

/-- Nominal run except that the configured Redis ping raises. -/
def envRedisDown : Env :=
  { envNominal with redisPingRaises := true, redisMsg := "ping timeout" }

/-- Nominal run except that every dependency check raises. -/
def envAllDown : Env :=
  { firestoreRaises := true, firestoreMsg := "firestore down",
    redisConfigured := true, redisPingRaises := true, redisMsg := "redis down",
    aiBlockRaises := true, aiMsg := "import error",
    loadModelBodyRaises := false, loadPromptsBodyRaises := false,
    now := 7 }

end UruguayNews

namespace UruguayNews

/-! ## Claim theorems -/

/-- Claim C1, counterexample: on a run where the Firestore check raises and
every other probe succeeds, the reported overall status is the string
"degraded", not "unhealthy": the source has no unhealthy tier at all. -/
theorem c1_raise_reports_degraded_not_unhealthy :
    envFirestoreDown.firestoreRaises = true ∧
    (health_check envFirestoreDown 0).1.status = "degraded" ∧
    (health_check envFirestoreDown 0).1.status ≠ "unhealthy" := by
  refine ⟨rfl, rfl, ?_⟩
  decide

/-- Claim C1, amended: on every run the overall status follows the full
two-valued rule: it is "degraded" if any dependency check raises an
exception (the Firestore query, a configured Redis ping, or the AI block) or
the AI models are not fully loaded (a guarded load body raised), and
"healthy" otherwise; in particular it is never "unhealthy" — the precedence
collapses Unreachable and Degraded into the single string "degraded". -/
theorem c1_overall_precedence (env : Env) (alloc : Nat) :
    (health_check env alloc).1.status =
      (if env.firestoreRaises || (env.redisConfigured && env.redisPingRaises) ||
          env.aiBlockRaises || env.loadModelBodyRaises || env.loadPromptsBodyRaises
       then "degraded" else "healthy") ∧
    (health_check env alloc).1.status ≠ "unhealthy" := by
  have he := health_check_eval env alloc
  constructor
  · simp [he, degradedCond]
  · cases hc : degradedCond env <;> simp [he, hc]

/-- Claim C2, counterexample: two successive calls of
`create_sentiment_analyzer` (from allocation state 0, with the load
succeeding) return two distinct instances: the factory constructs a fresh
object on every call instead of returning one shared instance per key. -/
theorem c2_successive_calls_distinct_instances :
    (create_sentiment_analyzer false 0).1 ≠
      (create_sentiment_analyzer false (create_sentiment_analyzer false 0).2).1 := by
  decide

/-- Claim C2, amended: `create_sentiment_analyzer` performs one construction
per call, not at most one per key: every call allocates a fresh instance
(advancing the allocation counter by one) and initializes it via
`load_model`, and two successive calls return instances with distinct
identities. -/
theorem c2_one_construction_per_call (r1 r2 : Bool) (alloc : Nat) :
    (create_sentiment_analyzer r1 alloc).1.id = alloc ∧
    (create_sentiment_analyzer r1 alloc).2 = alloc + 1 ∧
    (create_sentiment_analyzer false alloc).1.model_loaded = true ∧
    (create_sentiment_analyzer r1 alloc).1.id ≠
      (create_sentiment_analyzer r2 (create_sentiment_analyzer r1 alloc).2).1.id := by
  refine ⟨?_, ?_, rfl, ?_⟩
  · cases r1 <;> rfl
  · cases r1 <;> rfl
  · cases r1 <;> cases r2 <;>
      simp [create_sentiment_analyzer, SentimentAnalyzer.init,
        SentimentAnalyzer.load_model]

/-- Claim C3: `health_check` is total.  Under the explicit exception
semantics every run returns `Except.ok` — no dependency failure propagates —
and the returned value is well formed: its status is "healthy" or
"degraded" and the service and version fields are the fixed strings. -/
theorem c3_health_check_never_raises (env : Env) (alloc : Nat) :
    health_check_exc env alloc = Except.ok (health_check env alloc) ∧
    ((health_check env alloc).1.status = "healthy" ∨
      (health_check env alloc).1.status = "degraded") ∧
    (health_check env alloc).1.service = "uruguay-news-api" ∧
    (health_check env alloc).1.version = "0.1.0" := by
  refine ⟨?_, ?_, ?_, ?_⟩
  · rcases env with ⟨fs, fsm, rc, rp, rm, ab, am, lm, lp, now⟩
    cases fs <;> cases rc <;> cases rp <;> cases ab <;> cases lm <;> cases lp <;> rfl
  · have he := health_check_eval env alloc
    cases hc : degradedCond env <;> simp [he, hc]
  · have he := health_check_eval env alloc
    simp [he]
  · have he := health_check_eval env alloc
    simp [he]

/-- Claim C4, counterexample: on a run where the Firestore check raises, the
complete recorded response is a record of boolean flags with overall status
"degraded": the failing probe is recorded as `firestore_connected = false`,
with no per-probe tri-state value and no detail string carrying the error
message. -/
theorem c4_exception_records_boolean_flag_only :
    health_check envFirestoreDown 0 =
      ({ status := "degraded", service := "uruguay-news-api", version := "0.1.0",
         timestamp := 0, firestore_connected := false, redis_connected := true,
         ai_models_loaded := true }, 3) ∧
    (health_check envFirestoreDown 0).1.status ≠ "unreachable" := by
  constructor
  · rfl
  · decide

/-- Claim C4, amended: for every probe whose check raises an exception, the
recorded outcome is the corresponding boolean flag set to `false` together
with the overall status "degraded"; the response carries no per-probe status
enum and no detail string. -/
theorem c4_exception_yields_false_flag (env : Env) (alloc : Nat) :
    (env.firestoreRaises = true →
      (health_check env alloc).1.firestore_connected = false ∧
      (health_check env alloc).1.status = "degraded") ∧
    (env.redisConfigured = true → env.redisPingRaises = true →
      (health_check env alloc).1.redis_connected = false ∧
      (health_check env alloc).1.status = "degraded") ∧
    (env.aiBlockRaises = true →
      (health_check env alloc).1.ai_models_loaded = false ∧
      (health_check env alloc).1.status = "degraded") := by
  have he := health_check_eval env alloc
  refine ⟨fun h => ?_, fun h1 h2 => ?_, fun h => ?_⟩
  · constructor
    · simp [he, h]
    · simp [he, degradedCond, h]
  · constructor
    · simp [he, h1, h2]
    · simp [he, degradedCond, h1, h2]
  · constructor
    · simp [he, h]
    · simp [he, degradedCond, h]

/-- Witness for `c4_exception_yields_false_flag` at the concrete run where
all three checks raise. -/
theorem c4_exception_yields_false_flag_witness :
    ((health_check envAllDown 0).1.firestore_connected = false ∧
      (health_check envAllDown 0).1.status = "degraded") ∧
    ((health_check envAllDown 0).1.redis_connected = false ∧
      (health_check envAllDown 0).1.status = "degraded") ∧
    ((health_check envAllDown 0).1.ai_models_loaded = false ∧
      (health_check envAllDown 0).1.status = "degraded") :=
  ⟨(c4_exception_yields_false_flag envAllDown 0).1 rfl,
   (c4_exception_yields_false_flag envAllDown 0).2.1 rfl rfl,
   (c4_exception_yields_false_flag envAllDown 0).2.2 rfl⟩

/-- Claim C5: on a run where no dependency check raises but the AI models
are not fully loaded (a guarded load body raised, leaving its loaded flag
`False`), the overall status is "degraded". -/
theorem c5_degraded_when_models_not_loaded (env : Env) (alloc : Nat)
    (hfs : env.firestoreRaises = false)
    (hr : (env.redisConfigured && env.redisPingRaises) = false)
    (hai : env.aiBlockRaises = false)
    (hload : (env.loadModelBodyRaises || env.loadPromptsBodyRaises) = true) :
    (health_check env alloc).1.status = "degraded" := by
  have he := health_check_eval env alloc
  have hc : degradedCond env = true := by
    unfold degradedCond
    rw [hfs, hr, hai]
    simpa using hload
  simp [he, hc]

/-- Witness for `c5_degraded_when_models_not_loaded` at the concrete run
where only the sentiment-model load body raises. -/
theorem c5_degraded_when_models_not_loaded_witness :
    (health_check envLoadFail 0).1.status = "degraded" :=
  c5_degraded_when_models_not_loaded envLoadFail 0 rfl rfl rfl rfl

/-- Claim C6: the stub analysis methods return constant defaults.  On any
non-raising call, `analyze_sentiment` returns sentiment "neutral" with
confidence 0, scores positive 0 / negative 0 / neutral 1 and processing time
0, and `detect_bias` returns bias score 0, bias type "none" and confidence 0
— independent of the input text and of the instance. -/
theorem c6_stub_methods_constant (a : SentimentAnalyzer) (d : BiasDetector)
    (msg text : String) :
    SentimentAnalyzer.analyze_sentiment false msg a text =
      { sentiment := "neutral", confidence := 0, score_positive := 0,
        score_negative := 0, score_neutral := 1,
        processing_time := some 0, error := none } ∧
    BiasDetector.detect_bias false msg d text =
      { bias_score := 0, bias_type := "none", confidence := 0,
        analysis := "No bias detected",
        processing_time := some 0, error := none } :=
  ⟨rfl, rfl⟩

/-- Claim C7: the ready flags are monotone.  Once `model_loaded`
(respectively `prompts_loaded`) is `true`, no sequence of method calls on
the instance ever resets it to `false`. -/
theorem c7_ready_flag_never_reset :
    (∀ (ops : List SAOp) (a : SentimentAnalyzer), a.model_loaded = true →
      (applySAOps ops a).model_loaded = true) ∧
    (∀ (ops : List BDOp) (d : BiasDetector), d.prompts_loaded = true →
      (applyBDOps ops d).prompts_loaded = true) := by
  constructor
  · intro ops
    induction ops with
    | nil => intro a h; exact h
    | cons op rest ih =>
      intro a h
      refine ih (op.apply a) ?_
      cases op with
      | analyze r m t => exact h
      | load r => cases r <;> simp [SAOp.apply, SentimentAnalyzer.load_model, h]
  · intro ops
    induction ops with
    | nil => intro d h; exact h
    | cons op rest ih =>
      intro d h
      refine ih (op.apply d) ?_
      cases op with
      | detect r m t => exact h
      | load r => cases r <;> simp [BDOp.apply, BiasDetector.load_prompts, h]

/-- Witness for `c7_ready_flag_never_reset` on concrete already-loaded
instances and concrete call sequences. -/
theorem c7_ready_flag_never_reset_witness :
    (applySAOps [SAOp.load true, SAOp.analyze true "e" "t"] ⟨0, true⟩).model_loaded = true ∧
    (applyBDOps [BDOp.load true, BDOp.detect false "m" "u"] ⟨1, true⟩).prompts_loaded = true :=
  ⟨c7_ready_flag_never_reset.1 [SAOp.load true, SAOp.analyze true "e" "t"] ⟨0, true⟩ rfl,
   c7_ready_flag_never_reset.2 [BDOp.load true, BDOp.detect false "m" "u"] ⟨1, true⟩ rfl⟩

/-- Claim C8, counterexample: if the guarded body of `load_model` raises,
`create_sentiment_analyzer` returns an instance with `model_loaded = false`
(similarly for `create_bias_detector`), and the corresponding run of
`health_check` computes `ai_models_loaded = false` even though the AI block
itself raised no exception. -/
theorem c8_load_failure_returns_not_loaded :
    (create_sentiment_analyzer true 0).1.model_loaded = false ∧
    (create_bias_detector true 0).1.prompts_loaded = false ∧
    envLoadFail.aiBlockRaises = false ∧
    (health_check envLoadFail 0).1.ai_models_loaded = false := by
  decide

/-- Claim C8, amended: when the guarded load bodies do not raise, every call
to `create_sentiment_analyzer` returns `model_loaded = true` and every call
to `create_bias_detector` returns `prompts_loaded = true`; consequently a
run of `health_check` whose AI block raises no exception and whose load
bodies succeed computes `ai_models_loaded = true`. -/
theorem c8_loaded_when_load_succeeds (env : Env) (alloc : Nat)
    (hab : env.aiBlockRaises = false)
    (hlm : env.loadModelBodyRaises = false)
    (hlp : env.loadPromptsBodyRaises = false) :
    (create_sentiment_analyzer false alloc).1.model_loaded = true ∧
    (create_bias_detector false alloc).1.prompts_loaded = true ∧
    (health_check env alloc).1.ai_models_loaded = true := by
  have he := health_check_eval env alloc
  refine ⟨rfl, rfl, ?_⟩
  simp [he, hab, hlm, hlp]

/-- Witness for `c8_loaded_when_load_succeeds` at the nominal run. -/
theorem c8_loaded_when_load_succeeds_witness :
    (create_sentiment_analyzer false 5).1.model_loaded = true ∧
    (create_bias_detector false 5).1.prompts_loaded = true ∧
    (health_check envNominal 5).1.ai_models_loaded = true :=
  c8_loaded_when_load_succeeds envNominal 5 rfl rfl rfl

/-- Claim C9: with no Redis client configured, the response reports
`redis_connected = false` without downgrading the overall status: if the
Firestore check and the whole AI block succeed, the status stays "healthy".
An exception from a configured Redis client, by contrast, makes it
"degraded". -/
theorem c9_unconfigured_redis_not_degraded (env : Env) (alloc : Nat) :
    (env.redisConfigured = false →
      (health_check env alloc).1.redis_connected = false ∧
      (env.firestoreRaises = false → env.aiBlockRaises = false →
        env.loadModelBodyRaises = false → env.loadPromptsBodyRaises = false →
        (health_check env alloc).1.status = "healthy")) ∧
    (env.redisConfigured = true → env.redisPingRaises = true →
      (health_check env alloc).1.status = "degraded") := by
  have he := health_check_eval env alloc
  constructor
  · intro h
    constructor
    · simp [he, h]
    · intro h1 h2 h3 h4
      simp [he, degradedCond, h, h1, h2, h3, h4]
  · intro h1 h2
    simp [he, degradedCond, h1, h2]

/-- Witness for `c9_unconfigured_redis_not_degraded` at two concrete runs:
one with no Redis client, one with a configured client whose ping raises. -/
theorem c9_unconfigured_redis_not_degraded_witness :
    ((health_check envNoRedis 0).1.redis_connected = false ∧
      (health_check envNoRedis 0).1.status = "healthy") ∧
    (health_check envRedisDown 0).1.status = "degraded" :=
  ⟨⟨((c9_unconfigured_redis_not_degraded envNoRedis 0).1 rfl).1,
    ((c9_unconfigured_redis_not_degraded envNoRedis 0).1 rfl).2 rfl rfl rfl rfl⟩,
   (c9_unconfigured_redis_not_degraded envRedisDown 0).2 rfl rfl⟩

/-- Claim C10: `clean_text` equals Python string stripping, never raises
(the function is total by construction), and is idempotent. -/
theorem c10_clean_text_is_strip_and_idem (ce : ContentExtractor) (t : String) :
    ce.clean_text t = pyStrip t ∧
    ce.clean_text (ce.clean_text t) = ce.clean_text t :=
  ⟨rfl, pyStrip_idem t⟩

end UruguayNews
